import Mathlib

/-!
Verification of the scraprs repository: a shallow embedding in Lean 4 of the
two command-line scrapers (src/bin/leetcode_potd.rs and
src/bin/wikipedia_links.rs), together with theorems settling the claims
about their extraction logic, error handling and control flow.

Machine integers are modelled as Nat with explicit bounds (u32 parsing checks
the value against 2 ^ 32).  Fallible code is modelled with Option / Except.
Rust panics (assert!, expect) and Err returns are kept apart where the claims
need it.
-/

namespace Scraprs

/-! ## String utilities mirroring the Rust standard library -/

/-- Boolean test that the first list occurs at the very start of the second
list (the prefix test used by pattern search in str::split_once). -/
def leadsWith : List Char → List Char → Bool
  | [], _ => true
  | _ :: _, [] => false
  | a :: as, b :: bs => a == b && leadsWith as bs

/-- Mirrors Rust str::split_once on lists of characters: split at the FIRST
occurrence of the separator, returning the text before and after it, or
none when the separator does not occur. -/
def splitOnceL (sep : List Char) : List Char → Option (List Char × List Char)
  | [] => none
  | c :: rest =>
    if leadsWith sep (c :: rest) then some ([], (c :: rest).drop sep.length)
    else (splitOnceL sep rest).map (fun p => (c :: p.1, p.2))

/-- Mirrors name.split_once(". ") from scrape_potd (leetcode_potd.rs line 34),
lifted to String. -/
def splitTitle (s : String) : Option (String × String) :=
  (splitOnceL ['.', ' '] s.data).map
    (fun p => (String.mk p.1, String.mk p.2))

/-- Decimal value of a list of digit characters (the accumulator loop inside
Rust u32::from_str). -/
def digitsToNat (cs : List Char) : Nat :=
  cs.foldl (fun a c => a * 10 + (c.toNat - 48)) 0

/-- Removes the optional leading plus sign accepted by Rust integer
parsing. -/
def stripSign : List Char → List Char
  | '+' :: rest => rest
  | l => l

/-- The syntactic shape accepted by u32 parsing, range aside: an optional
leading plus sign followed by one or more ASCII digits. -/
def nonNegIntSyntax (s : String) : Bool :=
  !(stripSign s.data).isEmpty && (stripSign s.data).all Char.isDigit

/-- Mirrors str::parse::<u32> (leetcode_potd.rs line 36): an optional leading
plus sign, then one or more ASCII digits, failing when the value does not fit
in 32 bits. -/
def parseU32 (s : String) : Option Nat :=
  if !(stripSign s.data).isEmpty && (stripSign s.data).all Char.isDigit then
    if digitsToNat (stripSign s.data) < 2 ^ 32 then
      some (digitsToNat (stripSign s.data))
    else none
  else none

/-! ## POTD tool: data model (leetcode_potd.rs) -/

/-- The static LEETCODE_DOMAIN of leetcode_potd.rs line 8. -/
def LEETCODE_DOMAIN : String := "https://leetcode.com"

/-- Failure modes of the POTD row extraction.  In the Rust source the first
is a propagated WebDriver Err while the last two are panics raised by expect
(the spec error taxonomy names them FormatMismatch and MissingAttribute). -/
inductive ScrapeError where
  | noSuchElement (selector : String)
  | formatMismatch
  | missingAttribute
deriving DecidableEq, Repr

/-- Whether a ScrapeError is a Rust panic (expect) rather than a propagated
WebDriver Err. -/
def ScrapeError.isPanicErr : ScrapeError → Bool
  | .noSuchElement _ => false
  | .formatMismatch => true
  | .missingAttribute => true

/-- An anchor element as scrape_potd reads it: its rendered inner HTML and
its optional href attribute. -/
structure Anchor where
  innerHtml : String
  href : Option String
deriving DecidableEq, Repr

/-- The POTD table row handed to scrape_potd, described by the outcomes of
the three element lookups the function performs: the second structural
cell's anchor (find, Err when absent), whether the third structural cell
exists (find, Err when absent), and the optional solution anchor inside it
(query ... first_opt, Ok None when absent). -/
structure PotdRow where
  problemAnchor : Option Anchor
  solutionCellFound : Bool
  solutionAnchor : Option Anchor
deriving DecidableEq, Repr

/-- The record produced by scrape_potd (struct PotdInfo, leetcode_potd.rs
lines 17-23).  number is a u32 in the source, modelled as a Nat that parseU32
bounds by 2 ^ 32. -/
structure PotdInfo where
  number : Nat
  name : String
  url : String
  solution_url : Option String
deriving DecidableEq, Repr

/-- The title-processing step of scrape_potd (lines 32-36): split the anchor
text on the first ". ", then parse the part before it as a u32.  Both expect
calls in the source are panics; the spec taxonomy calls them FormatMismatch. -/
def extractTitle (s : String) : Except ScrapeError (Nat × String) :=
  match splitTitle s with
  | none => .error .formatMismatch
  | some (numStr, nm) =>
    match parseU32 numStr with
    | none => .error .formatMismatch
    | some n => .ok (n, nm)

/-- Shallow embedding of scrape_potd (leetcode_potd.rs lines 26-71) over a
PotdRow: locate the problem anchor, split its text into number and name,
read its href and build the absolute url, then look for an optional solution
anchor in the third cell. -/
def scrape_potd (row : PotdRow) : Except ScrapeError PotdInfo :=
  match row.problemAnchor with
  | none => .error (.noSuchElement "div[role=\x27cell\x27]:nth-child(2) a")
  | some pa =>
    match extractTitle pa.innerHtml with
    | .error e => .error e
    | .ok (number, nm) =>
      match pa.href with
      | none => .error .missingAttribute
      | some h =>
        let url := LEETCODE_DOMAIN ++ h
        if row.solutionCellFound then
          match row.solutionAnchor with
          | none => .ok ⟨number, nm, url, none⟩
          | some sa =>
            match sa.href with
            | none => .error .missingAttribute
            | some sh => .ok ⟨number, nm, url, some (LEETCODE_DOMAIN ++ sh)⟩
        else .error (.noSuchElement "div[role=\x27cell\x27]:nth-child(3)")

/-! ## POTD tool: TOML output (leetcode_potd.rs lines 145-159) -/

/-- A TOML value, as much of it as the POTD output uses. -/
inductive TomlValue where
  | str (s : String)
  | int (n : Nat)
  | table (kvs : List (String × TomlValue))

/-- Serialization of PotdInfo by toml::to_string_pretty: fields appear in
declaration order, and an Option field that is None is omitted from the
table altogether, which is how the toml serializer treats None (TOML has no
null value). -/
def serializePotd (r : PotdInfo) : List (String × TomlValue) :=
  [("number", TomlValue.int r.number), ("name", TomlValue.str r.name),
    ("url", TomlValue.str r.url)] ++
  (match r.solution_url with
    | some u => [("solution_url", TomlValue.str u)]
    | none => [])

/-- The full output document of the POTD tool: the serialized record with the
date string appended, nested under the top-level key "potd" (lines 149-156). -/
def potdOutput (r : PotdInfo) (date : String) : List (String × TomlValue) :=
  [("potd", TomlValue.table (serializePotd r ++ [("date", TomlValue.str date)]))]

/-! ## POTD tool: control flow of scraping and main (leetcode_potd.rs 74-176)

The async control flow is modelled as a deterministic trace: the environment
fixes the outcome of every element lookup, wait and check, and the run
produces the list of effects performed, in program order, together with how
it ended.  Waits that never see their condition time out as WebDriver Err
values; assert! and expect failures are panics. -/

/-- The CSS selector inside the wait condition that detects the POTD marker
icon (leetcode_potd.rs line 127). -/
def potdWaitIconSelector : String := "div[role=\x27cell\x27] > a > svg"

/-- The CSS selector inside the assert! re-check immediately before
extraction (leetcode_potd.rs line 138). -/
def potdCheckIconSelector : String := "div[role=\x27cell\x27] > a > svg"

/-- The effects of a POTD run, in the order the source performs them. -/
inductive PEvent where
  | createSession
  | goto
  | findBody
  | waitBodyHydrate
  | findDisabledTable
  | waitTableActive
  | findFallbackTable
  | checkTableActive
  | findRowgroup
  | waitPotdIcon
  | findFirstRow
  | checkIcon
  | scrapeRecord
  | serializeToml
  | checkOutputPath
  | writeFile
  | quit
deriving DecidableEq, Repr

/-- How the scraping function ended when it did not succeed: an Err returned
through the question-mark operator, or a panic raised by assert! / expect. -/
inductive Failure where
  | errReturn
  | panicked
deriving DecidableEq, Repr

/-- Environment of one POTD run: the outcome of every lookup, wait and check
the scraping function performs, in source order, plus the row content and
whether the output path exists when the lazy OUTPUT_PATH static is first
dereferenced (at the write on line 158). -/
structure PotdEnv where
  bodyFound : Bool
  bodyHydrates : Bool
  disabledTableFound : Bool
  tableBecomesActive : Bool
  fallbackTableFound : Bool
  tableActiveAtCheck : Bool
  rowgroupFound : Bool
  iconAppears : Bool
  firstRowFound : Bool
  iconAtCheck : Bool
  row : PotdRow
  outputPathExists : Bool
deriving DecidableEq, Repr

/-- Trace of scraping from the assert! on line 110 onwards, shared by the two
arms of the table match (lines 91-108): check the table is active, descend to
the rowgroup, wait for the POTD marker icon in the first row, re-find the
first row, re-check the icon with the identical selector, extract the record,
serialize it, and only then force OUTPUT_PATH (which checks path existence)
and write the file. -/
def scrapingTail (env : PotdEnv) (l : List PEvent) : List PEvent × Option Failure :=
  let l := l ++ [PEvent.checkTableActive]
  if !env.tableActiveAtCheck then (l, some .panicked) else
  let l := l ++ [PEvent.findRowgroup]
  if !env.rowgroupFound then (l, some .errReturn) else
  let l := l ++ [PEvent.waitPotdIcon]
  if !env.iconAppears then (l, some .errReturn) else
  let l := l ++ [PEvent.findFirstRow]
  if !env.firstRowFound then (l, some .errReturn) else
  let l := l ++ [PEvent.checkIcon]
  if !env.iconAtCheck then (l, some .panicked) else
  let l := l ++ [PEvent.scrapeRecord]
  match scrape_potd env.row with
  | .error e => (l, some (if e.isPanicErr then Failure.panicked else Failure.errReturn))
  | .ok _ =>
    let l := l ++ [PEvent.serializeToml, PEvent.checkOutputPath]
    if !env.outputPathExists then (l, some .panicked)
    else (l ++ [PEvent.writeFile], none)

/-- Shallow embedding of the scraping function (leetcode_potd.rs lines
74-162): navigate, wait for the body to hydrate, acquire the table either
through the disabled-state query plus an active wait or through the fallback
query, then continue with scrapingTail. -/
def scraping (env : PotdEnv) : List PEvent × Option Failure :=
  let l := [PEvent.goto, PEvent.findBody]
  if !env.bodyFound then (l, some .errReturn) else
  let l := l ++ [PEvent.waitBodyHydrate]
  if !env.bodyHydrates then (l, some .errReturn) else
  let l := l ++ [PEvent.findDisabledTable]
  if env.disabledTableFound then
    let l := l ++ [PEvent.waitTableActive]
    if !env.tableBecomesActive then (l, some .errReturn)
    else scrapingTail env l
  else
    let l := l ++ [PEvent.findFallbackTable]
    if !env.fallbackTableFound then (l, some .errReturn)
    else scrapingTail env l

/-- How the whole process ended. -/
inductive MainExit where
  | ok
  | errReturn
  | panicked
deriving DecidableEq, Repr

/-- Shallow embedding of main (leetcode_potd.rs lines 164-176): create the
session, run scraping, then call driver.quit.  A panic raised inside scraping
unwinds straight through main, so quit is only reached when scraping RETURNS
(Ok or Err); when quit itself fails its Err is returned first. -/
def mainRun (sessionOk : Bool) (env : PotdEnv) (quitOk : Bool) :
    List PEvent × MainExit :=
  if !sessionOk then ([PEvent.createSession], .errReturn) else
  let s := scraping env
  match s.2 with
  | some .panicked => (PEvent.createSession :: s.1, .panicked)
  | some .errReturn =>
    -- whether quit succeeds or not, some Err is returned
    (PEvent.createSession :: s.1 ++ [PEvent.quit], .errReturn)
  | none =>
    (PEvent.createSession :: s.1 ++ [PEvent.quit],
      if quitOk then .ok else .errReturn)

/-! ## Wiki tool: data model (wikipedia_links.rs) -/

/-- The static BASE_WIKI_URL of wikipedia_links.rs line 18. -/
def BASE_WIKI_URL : String := "https://en.wikipedia.org"

/-- An HTML node as the scraper crate exposes it: an element with a tag, an
attribute list and children, or a text node. -/
inductive Node where
  | elem (tag : String) (attrs : List (String × String)) (children : List Node)
  | text (s : String)

/-- First value bound to an attribute name, if any. -/
def getAttr (attrs : List (String × String)) (key : String) : Option String :=
  (attrs.find? (fun kv => kv.1 == key)).map (fun kv => kv.2)

/-- The WIKI_REGEX test of wikipedia_links.rs lines 21-22: is_match against
the anchored pattern slash-wiki-slash followed by one or more characters none
of which is a double quote. -/
def isWikiPath (s : String) : Bool :=
  match s.data with
  | '/' :: 'w' :: 'i' :: 'k' :: 'i' :: '/' :: rest =>
    !rest.isEmpty && rest.all (fun c => c != '"')
  | _ => false

mutual

/-- First element in document (pre-order) order matching the selector
div#bodyContent, mirroring document.select(..).next() on line 39-41. -/
def findBodyContent : Node → Option Node
  | .text _ => none
  | .elem tag attrs children =>
    if tag == "div" && getAttr attrs "id" == some "bodyContent" then
      some (.elem tag attrs children)
    else findBodyContentList children

/-- findBodyContent over a list of siblings, in order. -/
def findBodyContentList : List Node → Option Node
  | [] => none
  | n :: ns =>
    match findBodyContent n with
    | some r => some r
    | none => findBodyContentList ns

end

mutual

/-- The href values selected by "p a[href]" (wikipedia_links.rs line 47), in
document (pre-order) order: anchors carrying an href attribute whose ancestor
chain, inside the region the selection starts from, contains a paragraph.
underP records whether an ancestor already was a p element. -/
def pAnchorHrefs (underP : Bool) : Node → List String
  | .text _ => []
  | .elem tag attrs children =>
    (if underP && tag == "a" then
      match getAttr attrs "href" with
      | some h => [h]
      | none => []
    else []) ++ pAnchorHrefsList (underP || tag == "p") children

/-- pAnchorHrefs over a list of siblings, left to right. -/
def pAnchorHrefsList (underP : Bool) : List Node → List String
  | [] => []
  | n :: ns => pAnchorHrefs underP n ++ pAnchorHrefsList underP ns

end

/-- Failure modes of the wiki tool.  invalidRef is the assert! on lines
29-32, transport a reqwest Err, missingContentRegion the expect on line 42. -/
inductive WikiError where
  | invalidRef
  | transport (msg : String)
  | missingContentRegion
deriving DecidableEq, Repr

/-- An HTTP response that actually arrived: its status code and body text. -/
structure HttpResponse where
  status : Nat
  body : String
deriving DecidableEq, Repr

/-- Models reqwest::blocking::get followed by .text() (wikipedia_links.rs
line 35): a connection-level failure is an Err, but a response that arrived
yields its body whatever its status code is — reqwest does not turn a 4xx or
5xx status into an Err unless error_for_status is called, and this code never
calls it. -/
def fetchBody (net : Except String HttpResponse) : Except String String :=
  match net with
  | .error e => .error e
  | .ok resp => .ok resp.body

/-- The parsing-and-extraction tail of fetch_wiki_links (lines 36-58): locate
div#bodyContent, collect the hrefs of the paragraph anchors inside it, and
keep those matching WIKI_REGEX, preserving order and repeats. -/
def extractLinks (doc : Node) : Except WikiError (List String) :=
  match findBodyContent doc with
  | none => .error .missingContentRegion
  | some cd => .ok ((pAnchorHrefs false cd).filter isWikiPath)

/-- Network effects of a wiki run. -/
inductive WEvent where
  | netGet (url : String)
deriving DecidableEq, Repr

/-- Shallow embedding of fetch_wiki_links (wikipedia_links.rs lines 28-59):
assert the reference matches WIKI_REGEX (a panic, before any network call),
fetch the page body, parse it (parse is the HTML parser, which never fails)
and extract the links.  Returns the network events performed alongside the
result. -/
def fetch_wiki_links (parse : String → Node) (url_ref : String)
    (net : Except String HttpResponse) :
    List WEvent × Except WikiError (List String) :=
  if !isWikiPath url_ref then ([], .error .invalidRef) else
  let ev := [WEvent.netGet (BASE_WIKI_URL ++ url_ref)]
  match fetchBody net with
  | .error e => (ev, .error (.transport e))
  | .ok body => (ev, extractLinks (parse body))

/-! ## Concrete instances used by witnesses and counterexamples -/

/-- The document of spec Example 3: a body-content region whose only
paragraph anchors are two wiki links and one section anchor. -/
def exampleDoc : Node :=
  .elem "html" [] [
    .elem "div" [("id", "bodyContent")] [
      .elem "p" [] [
        .elem "a" [("href", "/wiki/Ownership_(computer_science)")] [],
        .elem "a" [("href", "#cite_note-1")] [],
        .elem "a" [("href", "/wiki/Rust_(programming_language)")] []]]]

/-- The body-content element of exampleDoc. -/
def exampleContentDiv : Node :=
  .elem "div" [("id", "bodyContent")] [
    .elem "p" [] [
      .elem "a" [("href", "/wiki/Ownership_(computer_science)")] [],
      .elem "a" [("href", "#cite_note-1")] [],
      .elem "a" [("href", "/wiki/Rust_(programming_language)")] []]]

/-- A wiki page body whose single paragraph anchor is one internal link,
used to show that a non-success status response still gets parsed. -/
def statusDoc : Node :=
  .elem "html" [] [
    .elem "div" [("id", "bodyContent")] [
      .elem "p" [] [.elem "a" [("href", "/wiki/Linked")] []]]]

/-- A well-formed POTD row: composite title, href present, solution cell
present but holding no solution anchor. -/
def rowGood : PotdRow :=
  ⟨some ⟨"1. Two Sum", some "/problems/two-sum/"⟩, true, none⟩

/-- A POTD row whose title has no ". " separator, making scrape_potd panic
at the split. -/
def rowNoSep : PotdRow :=
  ⟨some ⟨"Weekly Contest 418", some "/contest/"⟩, true, none⟩

/-- A POTD row whose title is "1. ", nothing after the separator. -/
def rowEmptyName : PotdRow :=
  ⟨some ⟨"1. ", some "/problems/x/"⟩, true, none⟩

/-- An environment in which every lookup, wait and check succeeds with the
given row, and the output path exists as given. -/
def happyEnv (row : PotdRow) (pathOk : Bool) : PotdEnv :=
  ⟨true, true, true, true, true, true, true, true, true, true, row, pathOk⟩

/-! ## Helper lemmas about the split and parse primitives -/

theorem leadsWith_self_append (l t : List Char) : leadsWith l (l ++ t) = true := by
  induction l with
  | nil => rfl
  | cons a as ih => simp [leadsWith, ih]

theorem leadsWith_exists {sep l : List Char} (h : leadsWith sep l = true) :
    ∃ t, l = sep ++ t := by
  induction sep generalizing l with
  | nil => exact ⟨l, rfl⟩
  | cons a as ih =>
    cases l with
    | nil => simp [leadsWith] at h
    | cons b bs =>
      simp only [leadsWith, Bool.and_eq_true, beq_iff_eq] at h
      obtain ⟨t, ht⟩ := ih h.2
      exact ⟨t, by simp [h.1, ht]⟩

theorem splitOnceL_some {sep l p q : List Char}
    (h : splitOnceL sep l = some (p, q)) : l = p ++ sep ++ q := by
  induction l generalizing p with
  | nil => simp [splitOnceL] at h
  | cons c rest ih =>
    by_cases hw : leadsWith sep (c :: rest) = true
    · simp only [splitOnceL, hw, reduceIte, Option.some.injEq, Prod.mk.injEq] at h
      obtain ⟨t, ht⟩ := leadsWith_exists hw
      obtain ⟨hp, hq⟩ := h
      subst hp
      rw [ht, List.drop_left] at hq
      simp [ht, hq]
    · rw [Bool.not_eq_true] at hw
      have hred : splitOnceL sep (c :: rest) =
          (splitOnceL sep rest).map (fun x => (c :: x.1, x.2)) := by
        simp [splitOnceL, hw]
      rw [hred] at h
      cases e : splitOnceL sep rest with
      | none => rw [e] at h; simp at h
      | some ab =>
        rw [e, Option.map_some', Option.some.injEq, Prod.mk.injEq] at h
        obtain ⟨h1, h2⟩ := h
        have e2 : splitOnceL sep rest = some (ab.1, q) := by
          rw [e, ← h2]
        have hrest : rest = ab.1 ++ sep ++ q := ih e2
        rw [← h1, hrest]
        simp

theorem splitOnceL_isSome {sep : List Char} (hsep : sep ≠ []) (p q : List Char) :
    (splitOnceL sep (p ++ sep ++ q)).isSome = true := by
  induction p with
  | nil =>
    cases sep with
    | nil => exact absurd rfl hsep
    | cons c cs =>
      have hlead : leadsWith (c :: cs) ((c :: cs) ++ q) = true :=
        leadsWith_self_append ..
      simp only [List.nil_append]
      rw [show ((c :: cs) ++ q) = c :: (cs ++ q) from rfl] at hlead ⊢
      simp [splitOnceL, hlead]
  | cons c p ih =>
    simp only [List.cons_append, List.append_assoc] at ih ⊢
    by_cases hw : leadsWith sep (c :: (p ++ (sep ++ q))) = true
    · simp [splitOnceL, hw]
    · simp [splitOnceL, hw, Option.isSome_map', ih]

theorem splitOnceL_none {sep l : List Char}
    (h : ∀ p q, l ≠ p ++ sep ++ q) : splitOnceL sep l = none := by
  cases e : splitOnceL sep l with
  | none => rfl
  | some pq =>
    have : l = pq.1 ++ sep ++ pq.2 := splitOnceL_some (by rw [e])
    exact absurd this (h pq.1 pq.2)

theorem dot_ne_of_digit {c : Char} (h : c.isDigit = true) : ('.' == c) = false := by
  cases hb : ('.' == c) with
  | false => rfl
  | true =>
    rw [beq_iff_eq] at hb
    rw [← hb] at h
    exact absurd h (by decide)

theorem splitOnceL_digits {N T : List Char} (hd : N.all Char.isDigit = true) :
    splitOnceL ['.', ' '] (N ++ '.' :: ' ' :: T) = some (N, T) := by
  induction N with
  | nil =>
    simp [splitOnceL, leadsWith, List.drop]
  | cons c cs ih =>
    simp only [List.all_cons, Bool.and_eq_true] at hd
    have hlead : leadsWith ['.', ' '] (c :: (cs ++ '.' :: ' ' :: T)) = false := by
      simp [leadsWith, dot_ne_of_digit hd.1]
    simp [splitOnceL, hlead, ih hd.2]

theorem string_eq_of_data {s t : String} (h : s.data = t.data) : s = t := by
  cases s
  cases t
  simp_all

theorem splitTitle_digits (N T : String) (hd : N.data.all Char.isDigit = true) :
    splitTitle (N ++ ". " ++ T) = some (N, T) := by
  unfold splitTitle
  rw [show (N ++ ". " ++ T).data = N.data ++ '.' :: ' ' :: T.data from by
    simp [String.data_append]]
  rw [splitOnceL_digits hd]
  rfl

theorem splitTitle_some {s a b : String} (h : splitTitle s = some (a, b)) :
    s = a ++ ". " ++ b := by
  unfold splitTitle at h
  cases e : splitOnceL ['.', ' '] s.data with
  | none => rw [e] at h; simp at h
  | some pq =>
    rw [e] at h
    simp only [Option.map_some', Option.some.injEq] at h
    have hdecomp : s.data = pq.1 ++ ['.', ' '] ++ pq.2 :=
      splitOnceL_some (show splitOnceL ['.', ' '] s.data = some (pq.1, pq.2) by
        rw [e])
    rw [Prod.mk.injEq] at h
    obtain ⟨h1, h2⟩ := h
    apply string_eq_of_data
    rw [hdecomp, ← h1, ← h2]
    simp [String.data_append]

theorem splitTitle_none {s : String} (h : ∀ a b : String, s ≠ a ++ ". " ++ b) :
    splitTitle s = none := by
  have hnone : splitOnceL ['.', ' '] s.data = none := by
    apply splitOnceL_none
    intro p q hpq
    refine h ⟨p⟩ ⟨q⟩ (string_eq_of_data ?_)
    rw [hpq]
    simp [String.data_append]
  unfold splitTitle
  rw [hnone]
  rfl

theorem splitTitle_isSome (a b : String) :
    (splitTitle (a ++ ". " ++ b)).isSome = true := by
  unfold splitTitle
  rw [show (a ++ ". " ++ b).data = a.data ++ ['.', ' '] ++ b.data from by
    simp [String.data_append]]
  rw [Option.isSome_map']
  exact splitOnceL_isSome (by decide) a.data b.data

theorem stripSign_digits {cs : List Char} (hd : cs.all Char.isDigit = true) :
    stripSign cs = cs := by
  cases cs with
  | nil => rfl
  | cons c t =>
    simp only [List.all_cons, Bool.and_eq_true] at hd
    unfold stripSign
    split
    · rename_i rest heq
      injection heq with h1 h2
      rw [h1] at hd
      exact absurd hd.1 (by decide)
    · rfl

theorem parseU32_lt {s : String} {n : Nat} (h : parseU32 s = some n) :
    n < 2 ^ 32 := by
  unfold parseU32 at h
  split at h
  · split at h
    · obtain h2 := Option.some.injEq .. ▸ h
      omega
    · simp at h
  · simp at h

theorem parseU32_digits {s : String} (hne : s.data ≠ [])
    (hd : s.data.all Char.isDigit = true) :
    parseU32 s =
      if digitsToNat s.data < 2 ^ 32 then some (digitsToNat s.data) else none := by
  unfold parseU32
  rw [stripSign_digits hd]
  simp [hne, hd]

theorem parseU32_none_of_bad {a : String} (h : nonNegIntSyntax a = false) :
    parseU32 a = none := by
  unfold nonNegIntSyntax at h
  unfold parseU32
  simp only [h, Bool.false_eq_true, reduceIte]

/-! ## Helper lemmas about extractTitle and scrape_potd -/

theorem extractTitle_digits_ok {N T : String} (hne : N.data ≠ [])
    (hd : N.data.all Char.isDigit = true)
    (hlt : digitsToNat N.data < 2 ^ 32) :
    extractTitle (N ++ ". " ++ T) = .ok (digitsToNat N.data, T) := by
  simp only [extractTitle, splitTitle_digits N T hd, parseU32_digits hne hd,
    hlt, ite_true]

theorem extractTitle_digits_overflow {N T : String}
    (hd : N.data.all Char.isDigit = true)
    (hge : 2 ^ 32 ≤ digitsToNat N.data) :
    extractTitle (N ++ ". " ++ T) = .error .formatMismatch := by
  have hne : N.data ≠ [] := by
    intro hnil
    rw [hnil] at hge
    simp [digitsToNat] at hge
  have hnlt : ¬ digitsToNat N.data < 2 ^ 32 := by omega
  simp only [extractTitle, splitTitle_digits N T hd, parseU32_digits hne hd,
    hnlt, ite_false]

theorem extractTitle_noSep {s : String} (h : ∀ a b : String, s ≠ a ++ ". " ++ b) :
    extractTitle s = .error .formatMismatch := by
  unfold extractTitle
  rw [splitTitle_none h]

theorem extractTitle_badNum {s a b : String} (hsplit : splitTitle s = some (a, b))
    (hbad : nonNegIntSyntax a = false) :
    extractTitle s = .error .formatMismatch := by
  simp only [extractTitle, hsplit, parseU32_none_of_bad hbad]

theorem extractTitle_ok_decomp {s nm : String} {n : Nat}
    (h : extractTitle s = .ok (n, nm)) :
    ∃ a : String, s = a ++ ". " ++ nm ∧ parseU32 a = some n := by
  unfold extractTitle at h
  cases e : splitTitle s with
  | none =>
    simp only [e] at h
    exact Except.noConfusion h
  | some p =>
    obtain ⟨a, b⟩ := p
    simp only [e] at h
    cases ep : parseU32 a with
    | none =>
      simp only [ep] at h
      exact Except.noConfusion h
    | some v =>
      simp only [ep, Except.ok.injEq, Prod.mk.injEq] at h
      obtain ⟨h1, h2⟩ := h
      subst h1
      subst h2
      exact ⟨a, splitTitle_some e, ep⟩

theorem extractTitle_ok_lt {s nm : String} {n : Nat}
    (h : extractTitle s = .ok (n, nm)) : n < 2 ^ 32 := by
  obtain ⟨a, _, hp⟩ := extractTitle_ok_decomp h
  exact parseU32_lt hp

theorem scrape_potd_ok_inv {row : PotdRow} {info : PotdInfo}
    (h : scrape_potd row = .ok info) :
    ∃ pa : Anchor, row.problemAnchor = some pa ∧
      extractTitle pa.innerHtml = .ok (info.number, info.name) := by
  obtain ⟨pa, cellF, sa⟩ := row
  cases pa with
  | none => simp [scrape_potd] at h
  | some a =>
    refine ⟨a, rfl, ?_⟩
    cases et : extractTitle a.innerHtml with
    | error e => simp [scrape_potd, et] at h
    | ok p =>
      obtain ⟨n, nm⟩ := p
      cases hh : a.href with
      | none => simp [scrape_potd, et, hh] at h
      | some hr =>
        cases cellF with
        | false => simp [scrape_potd, et, hh] at h
        | true =>
          cases sa with
          | none =>
            simp only [scrape_potd, et, hh, if_true, Except.ok.injEq] at h
            rw [← h]
          | some a2 =>
            cases h2 : a2.href with
            | none => simp [scrape_potd, et, hh, h2] at h
            | some sh =>
              simp only [scrape_potd, et, hh, h2, if_true, Except.ok.injEq] at h
              rw [← h]

/-! ## Helper lemmas about the scraping and main traces -/

theorem scrapingTail_no_quit (env : PotdEnv) (l : List PEvent)
    (h : PEvent.quit ∉ l) : PEvent.quit ∉ (scrapingTail env l).1 := by
  unfold scrapingTail
  repeat' split
  all_goals simp_all

theorem scraping_no_quit (env : PotdEnv) : PEvent.quit ∉ (scraping env).1 := by
  unfold scraping
  repeat' split
  all_goals first
    | exact scrapingTail_no_quit env _ (by simp)
    | simp

theorem scrapingTail_path_missing (env : PotdEnv) (l : List PEvent)
    (hp : env.outputPathExists = false) (hw : PEvent.writeFile ∉ l) :
    PEvent.writeFile ∉ (scrapingTail env l).1 ∧
      (scrapingTail env l).2 ≠ none := by
  unfold scrapingTail
  repeat' split
  all_goals constructor
  all_goals simp_all

theorem scraping_path_missing (env : PotdEnv)
    (hp : env.outputPathExists = false) :
    PEvent.writeFile ∉ (scraping env).1 ∧ (scraping env).2 ≠ none := by
  unfold scraping
  repeat' split
  all_goals first
    | exact scrapingTail_path_missing env _ hp (by simp)
    | (constructor <;> simp)

theorem scrapingTail_head (env : PotdEnv) (a : PEvent) (l : List PEvent) :
    ((scrapingTail env (a :: l)).1).head? = some a := by
  unfold scrapingTail
  repeat' split
  all_goals rfl

theorem scraping_head (env : PotdEnv) :
    (scraping env).1.head? = some PEvent.goto := by
  unfold scraping
  repeat' split
  all_goals first
    | rfl
    | exact scrapingTail_head env _ _

theorem scrapingTail_no_icon (env : PotdEnv) (l : List PEvent)
    (hi : env.iconAtCheck = false) (h : PEvent.scrapeRecord ∉ l) :
    PEvent.scrapeRecord ∉ (scrapingTail env l).1 ∧
      (scrapingTail env l).2 ≠ none := by
  unfold scrapingTail
  repeat' split
  all_goals constructor
  all_goals simp_all

theorem scraping_no_icon (env : PotdEnv) (hi : env.iconAtCheck = false) :
    PEvent.scrapeRecord ∉ (scraping env).1 ∧ (scraping env).2 ≠ none := by
  unfold scraping
  repeat' split
  all_goals first
    | exact scrapingTail_no_icon env _ hi (by simp)
    | (constructor <;> simp)

/-! ## Claims -/

/-- C1: for every composite title of the form N. T with N a non-negative
integer (a digit string) and T non-empty, the POTD title split on the first
". " yields number part N and name T; a title containing no ". " separator
makes extraction fail with FormatMismatch, as does a numeric part that is not
a valid non-negative integer. -/
theorem C1_title_split_spec :
    (∀ N T : String, N.data ≠ [] → N.data.all Char.isDigit = true → T ≠ "" →
      splitTitle (N ++ ". " ++ T) = some (N, T)) ∧
    (∀ s : String, (∀ a b : String, s ≠ a ++ ". " ++ b) →
      extractTitle s = .error .formatMismatch) ∧
    (∀ s a b : String, splitTitle s = some (a, b) → nonNegIntSyntax a = false →
      extractTitle s = .error .formatMismatch) := by
  refine ⟨?_, ?_, ?_⟩
  · intro N T hne hd hT
    exact splitTitle_digits N T hd
  · intro s h
    exact extractTitle_noSep h
  · intro s a b hs hb
    exact extractTitle_badNum hs hb

/-- C1 witness: the split at the spec example title, a separator-free title
failing, and a non-numeric number part failing. -/
theorem C1_title_split_spec_witness :
    splitTitle "2071. Maximum Number of Tasks You Can Assign" =
      some ("2071", "Maximum Number of Tasks You Can Assign") ∧
    extractTitle "Weekly Contest 418" = .error .formatMismatch ∧
    extractTitle "x7. Name" = .error .formatMismatch := by
  refine ⟨C1_title_split_spec.1 "2071" "Maximum Number of Tasks You Can Assign"
    (by decide) (by decide) (by decide), ?_,
    C1_title_split_spec.2.2 "x7. Name" "x7" "Name" (by rfl) (by rfl)⟩
  apply C1_title_split_spec.2.1 "Weekly Contest 418"
  intro a b heq
  have h1 := splitTitle_isSome a b
  rw [← heq] at h1
  exact absurd h1 (by decide)

/-- C9 counterexample: the extractor accepts the title "1. ", which has
nothing after the separator, and constructs a record whose name is the empty
string, so not every constructed record has a non-empty name. -/
theorem C9_empty_name_cex :
    scrape_potd rowEmptyName =
      .ok ⟨1, "", "https://leetcode.com/problems/x/", none⟩ ∧
    extractTitle "1. " = .ok (1, "") :=
  ⟨rfl, rfl⟩

/-- C9 (amended): the name of every record produced by the title extraction
is exactly the text after the first ". " of the title, so it is non-empty
precisely when text follows the separator; composite titles with a non-empty
tail yield that tail as the name, but the extractor does not reject an empty
tail. -/
theorem C9_name_after_sep :
    (∀ s nm : String, ∀ n : Nat, extractTitle s = .ok (n, nm) →
      ∃ a : String, s = a ++ ". " ++ nm) ∧
    (∀ N T : String, N.data ≠ [] → N.data.all Char.isDigit = true →
      digitsToNat N.data < 2 ^ 32 → T ≠ "" →
      extractTitle (N ++ ". " ++ T) = .ok (digitsToNat N.data, T)) := by
  constructor
  · intro s nm n h
    obtain ⟨a, ha, _⟩ := extractTitle_ok_decomp h
    exact ⟨a, ha⟩
  · intro N T hne hd hlt hT
    exact extractTitle_digits_ok hne hd hlt

/-- C9 witness: the amended statement applied at concrete titles. -/
theorem C9_name_after_sep_witness :
    (∃ a : String, "1. Two Sum" = a ++ ". " ++ "Two Sum") ∧
    extractTitle "2071. Maximum" = .ok (2071, "Maximum") := by
  constructor
  · exact C9_name_after_sep.1 "1. Two Sum" "Two Sum" 1 (by rfl)
  · exact C9_name_after_sep.2 "2071" "Maximum" (by decide) (by decide)
      (by decide) (by decide)

/-- C10: the problem number is a u32: every record scrape_potd constructs
satisfies number less than 2 ^ 32, and a composite title whose digit string
denotes a value of at least 2 ^ 32 makes extraction abort at the
number-parsing step instead of producing a record. -/
theorem C10_number_u32 :
    (∀ row : PotdRow, ∀ info : PotdInfo, scrape_potd row = .ok info →
      info.number < 2 ^ 32) ∧
    (∀ N T : String, N.data.all Char.isDigit = true →
      2 ^ 32 ≤ digitsToNat N.data →
      extractTitle (N ++ ". " ++ T) = .error .formatMismatch) := by
  constructor
  · intro row info h
    obtain ⟨pa, _, het⟩ := scrape_potd_ok_inv h
    exact extractTitle_ok_lt het
  · intro N T hd hge
    exact extractTitle_digits_overflow hd hge

/-- C10 witness: a concrete successful record is in range, and the first
out-of-range number 4294967296 is rejected. -/
theorem C10_number_u32_witness :
    (scrape_potd rowGood =
      .ok ⟨1, "Two Sum", "https://leetcode.com/problems/two-sum/", none⟩ ∧
      (1 : Nat) < 2 ^ 32) ∧
    extractTitle "4294967296. Overflow" = .error .formatMismatch := by
  refine ⟨⟨rfl, ?_⟩, ?_⟩
  · exact C10_number_u32.1 rowGood
      ⟨1, "Two Sum", "https://leetcode.com/problems/two-sum/", none⟩ rfl
  · exact C10_number_u32.2 "4294967296" "Overflow" (by decide) (by decide)

/-- C7: when the third cell holds no solution anchor, extraction succeeds
with solution_url none (neither an error nor an empty string), and the
serialized table omits the solution_url key entirely. -/
theorem C7_solution_absent :
    (∀ row : PotdRow, ∀ pa : Anchor, ∀ n : Nat, ∀ nm hr : String,
      row.problemAnchor = some pa →
      extractTitle pa.innerHtml = .ok (n, nm) →
      pa.href = some hr →
      row.solutionCellFound = true →
      row.solutionAnchor = none →
      scrape_potd row = .ok ⟨n, nm, LEETCODE_DOMAIN ++ hr, none⟩) ∧
    (∀ r : PotdInfo, ∀ d : String, r.solution_url = none →
      (serializePotd r).map Prod.fst = ["number", "name", "url"] ∧
      potdOutput r d = [("potd", TomlValue.table
        [("number", TomlValue.int r.number), ("name", TomlValue.str r.name),
          ("url", TomlValue.str r.url), ("date", TomlValue.str d)])]) ∧
    (none : Option String) ≠ some "" := by
  refine ⟨?_, ?_, by simp⟩
  · intro row pa n nm hr hpa het bref hcell hsol
    simp only [scrape_potd, hpa, het, bref, hcell, hsol, if_true]
  · intro r d hnone
    constructor
    · simp [serializePotd, hnone]
    · simp [potdOutput, serializePotd, hnone]

/-- C7 witness: a concrete row with no solution anchor extracts with
solution_url none, and its serialized potd table carries exactly the keys
number, name, url and date. -/
theorem C7_solution_absent_witness :
    scrape_potd rowGood =
      .ok ⟨1, "Two Sum", "https://leetcode.com/problems/two-sum/", none⟩ ∧
    potdOutput ⟨1, "Two Sum", "https://leetcode.com/problems/two-sum/", none⟩
        "20260101" =
      [("potd", TomlValue.table
        [("number", TomlValue.int 1), ("name", TomlValue.str "Two Sum"),
          ("url", TomlValue.str "https://leetcode.com/problems/two-sum/"),
          ("date", TomlValue.str "20260101")])] := by
  constructor
  · exact C7_solution_absent.1 rowGood ⟨"1. Two Sum", some "/problems/two-sum/"⟩
      1 "Two Sum" "/problems/two-sum/" rfl rfl rfl rfl rfl
  · exact (C7_solution_absent.2.1
      ⟨1, "Two Sum", "https://leetcode.com/problems/two-sum/", none⟩
      "20260101" rfl).2

/-- C8: a first row lacking the POTD marker icon at the re-check is never
passed to record extraction (no scrapeRecord effect occurs and the run does
not succeed), and the wait condition and the pre-extraction re-verification
use the identical CSS selector. -/
theorem C8_icon_guard :
    (∀ env : PotdEnv, env.iconAtCheck = false →
      PEvent.scrapeRecord ∉ (scraping env).1 ∧ (scraping env).2 ≠ none) ∧
    potdWaitIconSelector = potdCheckIconSelector :=
  ⟨fun env hi => scraping_no_icon env hi, rfl⟩

/-- C8 witness: a concrete environment whose first row lacks the icon at the
re-check never reaches extraction. -/
theorem C8_icon_guard_witness :
    PEvent.scrapeRecord ∉ (scraping ⟨true, true, true, true, true, true, true,
      true, true, false, rowGood, true⟩).1 ∧
    (scraping ⟨true, true, true, true, true, true, true, true, true, false,
      rowGood, true⟩).2 ≠ none :=
  C8_icon_guard.1 ⟨true, true, true, true, true, true, true, true, true,
    false, rowGood, true⟩ rfl

/-- C4 counterexample: with a nonexistent output path but everything else
fine, the run navigates to the page, performs every wait and the extraction,
and only then fails when the lazy OUTPUT_PATH static is forced at the write
step, so the failure is not before network activity. -/
theorem C4_lazy_path_check_cex :
    scraping (happyEnv rowGood false) =
      ([PEvent.goto, PEvent.findBody, PEvent.waitBodyHydrate,
        PEvent.findDisabledTable, PEvent.waitTableActive,
        PEvent.checkTableActive, PEvent.findRowgroup, PEvent.waitPotdIcon,
        PEvent.findFirstRow, PEvent.checkIcon, PEvent.scrapeRecord,
        PEvent.serializeToml, PEvent.checkOutputPath],
        some Failure.panicked) :=
  rfl

/-- C4 (amended): a nonexistent output path makes the run fail and nothing is
ever written, but the existence check is deferred to the write step: the very
first effect of every run is the page navigation, so the failure is not
before network activity. -/
theorem C4_lazy_path_check :
    ∀ env : PotdEnv, env.outputPathExists = false →
      PEvent.writeFile ∉ (scraping env).1 ∧ (scraping env).2 ≠ none ∧
      (scraping env).1.head? = some PEvent.goto := by
  intro env hp
  obtain ⟨h1, h2⟩ := scraping_path_missing env hp
  exact ⟨h1, h2, scraping_head env⟩

/-- C4 witness: the amended statement at a concrete environment with a
missing output path. -/
theorem C4_lazy_path_check_witness :
    PEvent.writeFile ∉ (scraping (happyEnv rowGood false)).1 ∧
    (scraping (happyEnv rowGood false)).2 ≠ none ∧
    (scraping (happyEnv rowGood false)).1.head? = some PEvent.goto :=
  C4_lazy_path_check (happyEnv rowGood false) rfl

/-- C5 counterexample: when scrape_potd panics (here on a title with no
". " separator), the panic unwinds through main and driver.quit is never
invoked, so the session is not terminated on the panic path. -/
theorem C5_quit_skipped_on_panic_cex :
    PEvent.quit ∉ (mainRun true (happyEnv rowNoSep true) true).1 ∧
    (mainRun true (happyEnv rowNoSep true) true).2 = MainExit.panicked := by
  constructor
  · decide
  · rfl

/-- C5 (amended): driver.quit is invoked whenever scraping returns, whether
Ok or Err, before main reports its result; but a panic inside scraping
bypasses quit. -/
theorem C5_quit_unless_panic :
    (∀ env : PotdEnv, ∀ q : Bool, (scraping env).2 ≠ some Failure.panicked →
      PEvent.quit ∈ (mainRun true env q).1) ∧
    (∀ env : PotdEnv, ∀ q : Bool, (scraping env).2 = some Failure.panicked →
      PEvent.quit ∉ (mainRun true env q).1) := by
  constructor
  · intro env q h
    cases hs : (scraping env).2 with
    | none => simp [mainRun, hs]
    | some f =>
      cases f with
      | errReturn => simp [mainRun, hs]
      | panicked => exact absurd hs h
  · intro env q h
    simp [mainRun, h, scraping_no_quit env]

/-- C5 witness: the amended statement at concrete environments, one returning
Ok and one returning Err. -/
theorem C5_quit_unless_panic_witness :
    PEvent.quit ∈ (mainRun true (happyEnv rowGood true) true).1 ∧
    PEvent.quit ∈ (mainRun true ⟨true, true, true, true, true, true, false,
      true, true, true, rowGood, true⟩ true).1 :=
  ⟨C5_quit_unless_panic.1 (happyEnv rowGood true) true (by decide),
    C5_quit_unless_panic.1 ⟨true, true, true, true, true, true, false,
      true, true, true, rowGood, true⟩ true (by decide)⟩

/-- C2: the wiki link extractor returns exactly the href values of anchors
under paragraphs inside the body-content container that match the wiki path
pattern, in document order including repeats; every returned value satisfies
the pattern, and non-matching hrefs such as section anchors are excluded. -/
theorem C2_wiki_link_extraction :
    ∀ doc cd : Node, findBodyContent doc = some cd →
      extractLinks doc = .ok ((pAnchorHrefs false cd).filter isWikiPath) ∧
      (∀ l ∈ (pAnchorHrefs false cd).filter isWikiPath, isWikiPath l = true) ∧
      List.Sublist ((pAnchorHrefs false cd).filter isWikiPath)
        (pAnchorHrefs false cd) ∧
      (∀ l : String, l ∈ (pAnchorHrefs false cd).filter isWikiPath ↔
        l ∈ pAnchorHrefs false cd ∧ isWikiPath l = true) ∧
      isWikiPath "#cite_note-1" = false := by
  intro doc cd h
  refine ⟨?_, ?_, List.filter_sublist _, fun l => List.mem_filter, by decide⟩
  · simp only [extractLinks, h]
  · intro l hl
    exact (List.mem_filter.mp hl).2

/-- C2 witness: on the spec Example 3 document the extractor returns exactly
the two wiki links, in order, and drops the section anchor. -/
theorem C2_wiki_link_extraction_witness :
    extractLinks exampleDoc =
      .ok ((pAnchorHrefs false exampleContentDiv).filter isWikiPath) ∧
    extractLinks exampleDoc = .ok ["/wiki/Ownership_(computer_science)",
      "/wiki/Rust_(programming_language)"] :=
  ⟨(C2_wiki_link_extraction exampleDoc exampleContentDiv rfl).1, rfl⟩

/-- C3 counterexample: an HTTP 404 response is not turned into a
TransportError: its body is handed to the parser and links are extracted
normally, refuting the claim that every non-success status fails the fetch
step. -/
theorem C3_status_not_checked_cex :
    fetch_wiki_links (fun _ => statusDoc) "/wiki/Missing_Page"
        (.ok ⟨404, "<html>"⟩) =
      ([WEvent.netGet "https://en.wikipedia.org/wiki/Missing_Page"],
        .ok ["/wiki/Linked"]) ∧
    fetchBody (.ok ⟨404, "<html>"⟩) = .ok "<html>" :=
  ⟨rfl, rfl⟩

/-- C3 (amended): the fetch step fails with a TransportError exactly on
connection failure; a response that arrived is processed identically
whatever its status code, because the code never inspects the status. -/
theorem C3_transport_on_conn_failure :
    (∀ parse : String → Node, ∀ ref e : String, isWikiPath ref = true →
      (fetch_wiki_links parse ref (.error e)).2 = .error (.transport e)) ∧
    (∀ parse : String → Node, ∀ ref : String, ∀ s1 s2 : Nat, ∀ b : String,
      isWikiPath ref = true →
      (fetch_wiki_links parse ref (.ok ⟨s1, b⟩)).2 =
        (fetch_wiki_links parse ref (.ok ⟨s2, b⟩)).2) := by
  constructor
  · intro parse ref e h
    simp [fetch_wiki_links, fetchBody, h]
  · intro parse ref s1 s2 b h
    simp [fetch_wiki_links, fetchBody, h]

/-- C3 witness: the amended statement at a concrete connection failure and a
concrete pair of statuses. -/
theorem C3_transport_on_conn_failure_witness :
    (fetch_wiki_links (fun _ => statusDoc) "/wiki/Down"
        (.error "connection refused")).2 =
      .error (.transport "connection refused") ∧
    (fetch_wiki_links (fun _ => statusDoc) "/wiki/Up" (.ok ⟨500, "x"⟩)).2 =
      (fetch_wiki_links (fun _ => statusDoc) "/wiki/Up" (.ok ⟨200, "x"⟩)).2 :=
  ⟨C3_transport_on_conn_failure.1 (fun _ => statusDoc) "/wiki/Down"
      "connection refused" (by decide),
    C3_transport_on_conn_failure.2 (fun _ => statusDoc) "/wiki/Up" 500 200 "x"
      (by decide)⟩

/-- C6: a reference that does not match the wiki path pattern makes the run
abort before any network call (the result is the validation error and the
event log is empty, whatever the network would have answered); a matching
reference passes validation and the fetch of base domain plus reference is
performed. -/
theorem C6_reference_validation :
    (∀ parse : String → Node, ∀ ref : String,
      ∀ net : Except String HttpResponse, isWikiPath ref = false →
      fetch_wiki_links parse ref net = ([], .error .invalidRef)) ∧
    (∀ parse : String → Node, ∀ ref : String,
      ∀ net : Except String HttpResponse, isWikiPath ref = true →
      (fetch_wiki_links parse ref net).1 =
        [WEvent.netGet (BASE_WIKI_URL ++ ref)]) ∧
    isWikiPath "/wiki/Rust_(programming_language)" = true ∧
    isWikiPath "https://en.wikipedia.org/wiki/Rust" = false := by
  refine ⟨?_, ?_, by decide, by decide⟩
  · intro parse ref net h
    simp [fetch_wiki_links, h]
  · intro parse ref net h
    cases hfb : fetchBody net with
    | error e => simp [fetch_wiki_links, h, hfb]
    | ok b => simp [fetch_wiki_links, h, hfb]

/-- C6 witness: the absolute URL of the spec example is rejected with no
network event, and the valid relative reference proceeds to exactly one GET
of the composed URL. -/
theorem C6_reference_validation_witness :
    fetch_wiki_links (fun _ => Node.text "") "https://en.wikipedia.org/wiki/Rust"
        (.error "refused") = ([], .error .invalidRef) ∧
    (fetch_wiki_links (fun _ => exampleDoc) "/wiki/Rust_(programming_language)"
        (.ok ⟨200, "body"⟩)).1 =
      [WEvent.netGet "https://en.wikipedia.org/wiki/Rust_(programming_language)"] := by
  constructor
  · exact C6_reference_validation.1 (fun _ => Node.text "")
      "https://en.wikipedia.org/wiki/Rust" (.error "refused") (by decide)
  · exact (C6_reference_validation.2.1 (fun _ => exampleDoc)
      "/wiki/Rust_(programming_language)" (.ok ⟨200, "body"⟩)
      (by decide)).trans rfl

end Scraprs
